import Mathlib

/-!
Verification of the tournament-simulation core (src/main.js).

Shallow embedding conventions:
* JavaScript numbers are modeled by exact arithmetic: integer-valued data
  (rankings, scores) as `ℤ`, fractional constants such as `0.07`/`0.65` as `ℚ`,
  and the one genuinely irrational computation (`Math.pow(x, 1.5)` inside the
  expected-margin curve) as `ℝ` with `Real.rpow`.
* `Math.floor` is `Int.floor`, and `Math.round` is Mathlib's `round`
  (both satisfy `round x = ⌊x + 1/2⌋`, exactly JavaScript's behavior,
  including `Math.round(-0.5) = -0`).
* JavaScript objects keyed by strings are association lists (or total
  functions updated with `Function.update` for the mutable form table).
* `Math.random()` draws are an explicit stream `rand : ℕ → ℚ` indexed by a
  counter threaded through the simulation state, three draws per match in
  source order (the shared random factor first, then the two variance draws).
* Computations that make the JavaScript engine throw (dereferencing
  `undefined`) are modeled with `Except String`; `NaN` arising from
  `Number()` on malformed score strings is modeled explicitly by `JSInt`.
-/

namespace TournamentSim

set_option linter.dupNamespace false in
/-- A team record as found in `groups.json`: display name, ISO code and
FIBA ranking (field names follow the JSON properties used by `main.js`). -/
structure Team where
  Team : String
  ISOCode : String
  FIBARanking : ℤ
deriving DecidableEq

/-- An exhibition record whose `Result` string has already been split into its
two integer scores.  (`main.js` stores `Result` as `"<int>-<int>"` and parses
it with `split('-').map(Number)`; the string form together with its failure
modes is modeled separately by `jsNumber`/`getInitialForms` below.) -/
structure ExhMatch where
  Opponent : String
  score1 : ℤ
  score2 : ℤ
deriving DecidableEq

/-- The `exhibitions.json` mapping: team code to its ordered exhibition list. -/
def ExhMap : Type := List (String × List ExhMatch)

/-- Embeds `getTotalPointsForTeam` (src/main.js lines 46-51): for every
exhibition match of `team`, sum the two final scores, apply `Math.floor(… / 2)`
per match, and accumulate.  A team missing from the exhibition map makes the
JavaScript code throw; the claims about this function only concern teams with
exhibition histories, so the lookup defaults to the empty list here (the
abort behavior is analyzed on `getInitialForms`). -/
def getTotalPointsForTeam (exhibitions : ExhMap) (team : String) : ℤ :=
  ((List.lookup team exhibitions).getD []).foldl
    (fun acc m => acc + ⌊((m.score1 + m.score2 : ℤ) : ℚ) / 2⌋) 0

/-- Embeds `getBaseScore` (src/main.js lines 45-55):
`Math.floor((T1 + T2) / 4) - 6` where `Ti` is `getTotalPointsForTeam`. -/
def getBaseScore (exhibitions : ExhMap) (team1 team2 : String) : ℤ :=
  ⌊((getTotalPointsForTeam exhibitions team1 +
      getTotalPointsForTeam exhibitions team2 : ℤ) : ℚ) / 4⌋ - 6

/-- Spec-side formula for the base score, following the words of claim C3 and
§4.3 of the spec: each team's value is its AVERAGE per-game total (the exact
per-match halves `(s1+s2)/2` averaged over that team's matches, with no
per-match rounding); the only floor is the outer one. -/
def avgPerGameTotal (exhibitions : ExhMap) (team : String) : ℚ :=
  let ms := (List.lookup team exhibitions).getD []
  ((ms.map (fun m => ((m.score1 + m.score2 : ℤ) : ℚ) / 2)).sum) / ms.length

/-- Spec-side base score (claim C3's formula): `⌊(T1 + T2) / 4⌋ - 6` with the
`Ti` given by `avgPerGameTotal`. -/
def baseScoreSpec (exhibitions : ExhMap) (team1 team2 : String) : ℤ :=
  ⌊(avgPerGameTotal exhibitions team1 + avgPerGameTotal exhibitions team2) / 4⌋ - 6

/-- Embeds the `actualPointDiff` computation of `expectedPointDiff`
(src/main.js line 86): the margin in favor of the numerically lower-ranked
(stronger) team; with equal ranks the code takes the `score2 - score1` arm. -/
def actualPointDiff (rankHome rankAway s1 s2 : ℤ) : ℤ :=
  if rankHome < rankAway then s1 - s2 else s2 - s1

/-- Source constant `baseDiff = 4` (src/main.js line 91). -/
noncomputable def baseDiff : ℝ := 4

/-- Source constant `maxDiff = 30` (src/main.js line 93). -/
noncomputable def maxDiff : ℝ := 30

/-- Source constant `scalingFactor = 1.5` (src/main.js line 96). -/
noncomputable def scalingFactor : ℝ := 1.5

/-- Embeds the `pointDiff` curve of `expectedPointDiff` (src/main.js line 99):
`baseDiff + (maxDiff - baseDiff) * Math.pow(rankDiff / 30, scalingFactor)`. -/
noncomputable def pointDiffCurve (rankDiff : ℕ) : ℝ :=
  baseDiff + (maxDiff - baseDiff) * ((rankDiff : ℝ) / 30) ^ scalingFactor

/-- Embeds `expectedPointDiff` (src/main.js lines 85-118).

In the source, the `rankDiff > 10` branch compares
`actualPointDiff >= margin` while `margin` is still the uninitialized
`let margin;` — in JavaScript a relational comparison with `undefined`
converts it to `NaN` and is therefore `false` for every operand, so that
branch always takes `return 0`.  The embedding reflects this collapsed
behavior of the source, not the (unreachable) `margin = actualPointDiff / 3`
assignment. -/
noncomputable def expectedPointDiff (rankHome rankAway s1 s2 : ℤ) : ℤ :=
  if (rankHome - rankAway).natAbs > 10 then 0
  else
    round (((actualPointDiff rankHome rankAway s1 s2 : ℝ) -
      pointDiffCurve (rankHome - rankAway).natAbs) / 3)

/-- Concrete exhibition data for the C3 counterexample: both teams played two
exhibition games with a `10-10` result (per-game total 20). -/
def exC3 : ExhMap :=
  [("CAN", [⟨"AUS", 10, 10⟩, ⟨"AUS", 10, 10⟩]),
   ("AUS", [⟨"CAN", 10, 10⟩, ⟨"CAN", 10, 10⟩])]

/-- A JavaScript number as it occurs in the form-seeding pipeline: either a
genuine integer or `NaN` (the scores parsed by `Number()`, the values returned
by `expectedPointDiff` and the accumulated forms are all integer-valued in
`getInitialForms`, so `ℤ` plus an explicit `NaN` is an exact model there). -/
inductive JSInt where
  | nan : JSInt
  | int : ℤ → JSInt
deriving DecidableEq

/-- JavaScript `+` on `JSInt`: `NaN` propagates through every addition. -/
def jsAdd : JSInt → JSInt → JSInt
  | JSInt.int a, JSInt.int b => JSInt.int (a + b)
  | _, _ => JSInt.nan

/-- JavaScript binary `-` on `JSInt`: `NaN` propagates through every
subtraction (`undefined` operands also become `NaN` first). -/
def jsSub : JSInt → JSInt → JSInt
  | JSInt.int a, JSInt.int b => JSInt.int (a - b)
  | _, _ => JSInt.nan

/-- Models `String.prototype.split(sep)` on the character list of the string
(for a single-character separator, as in `match.Result.split('-')`). -/
def splitOnChar (sep : Char) : List Char → List (List Char)
  | [] => [[]]
  | c :: cs =>
    if c = sep then [] :: splitOnChar sep cs
    else
      match splitOnChar sep cs with
      | [] => [[c]]
      | h :: t => (c :: h) :: t

/-- Numeric value of a list of decimal digits. -/
def digitsVal (cs : List Char) : ℤ :=
  cs.foldl (fun n c => 10 * n + ((c.toNat : ℤ) - 48)) 0

/-- Models JavaScript `Number()` on the score fragments produced by
`split('-')`: the empty string converts to `0`, a string of decimal digits to
its value, and anything else to `NaN`.  (Fragments of a score string contain
no `-`; exotic `Number()` inputs such as hex or scientific notation do not
occur in `"<int>-<int>"` data and are out of scope.) -/
def jsNumber (cs : List Char) : JSInt :=
  if cs = [] then JSInt.int 0
  else if cs.all Char.isDigit then JSInt.int (digitsVal cs) else JSInt.nan

/-- Embeds `expectedPointDiff` as invoked on possibly-`NaN` scores (the
`getInitialForms` call path, src/main.js lines 22-24).  The structure mirrors
the source: `actualPointDiff` is the rank-directed score difference (with
`NaN`/`undefined` propagating); when `rankDiff > 10` the uninitialized-margin
comparison is false even for `NaN`, so the code returns the number `0`;
otherwise the code returns `Math.round((actualPointDiff - pointDiff) / 3)`,
which is `NaN` when `actualPointDiff` is `NaN` and otherwise agrees with
`expectedPointDiff` on the integer scores. -/
noncomputable def expectedPointDiffJS (rankHome rankAway : ℤ) (s1 s2 : JSInt) : JSInt :=
  let actual := if rankHome < rankAway then jsSub s1 s2 else jsSub s2 s1
  if (rankHome - rankAway).natAbs > 10 then JSInt.int 0
  else
    match actual with
    | JSInt.nan => JSInt.nan
    | JSInt.int a => JSInt.int (round (((a : ℝ) - pointDiffCurve (rankHome - rankAway).natAbs) / 3))

/-- A raw exhibition record as stored in `exhibitions.json`: opponent code and
unparsed `"<int>-<int>"` result string. -/
structure ExhRecord where
  Opponent : String
  Result : String
deriving DecidableEq

/-- Models `acc[key] = value` on a JavaScript object represented as an
association list in property-insertion order: an existing key is overwritten
in place, a new key is appended. -/
def objSet (l : List (String × JSInt)) (k : String) (v : JSInt) : List (String × JSInt) :=
  if l.any (fun p => p.1 == k) then l.map (fun p => if p.1 == k then (k, v) else p)
  else l ++ [(k, v)]

/-- Models `team.form += pointDiff` through a reference obtained with
`teamRankings.find(...)`: the FIRST entry whose ISO code matches is updated. -/
def updFormJS (code : String) (d : JSInt) : List (Team × JSInt) → List (Team × JSInt)
  | [] => []
  | p :: ps =>
    if p.1.ISOCode == code then (p.1, jsAdd p.2 d) :: ps
    else p :: updFormJS code d ps

/-- Embeds `getInitialForms` (src/main.js lines 9-35).  `teamRankings` is the
flattened group list with every form seeded to `0`; each exhibition entry
finds the home team (an absent code makes `homeTeam.FIBARanking` throw a
`TypeError`, modeled as `Except.error`); each match finds the away team
(likewise throwing when absent), parses the result string with
`split('-').map(Number)` (a missing second fragment is `undefined`, which
behaves as `NaN` in the subsequent arithmetic), computes the expected point
difference, and accumulates it onto the form of whichever team is the
numerically lower-ranked side; finally the mutated list is folded into the
code-to-form object. -/
noncomputable def getInitialForms (groups : List (String × List Team))
    (exhibitions : List (String × List ExhRecord)) :
    Except String (List (String × JSInt)) :=
  let teamRankings : List (Team × JSInt) :=
    groups.foldl (fun acc g => acc ++ g.2.map (fun t => (t, JSInt.int 0))) []
  let processEntry : List (Team × JSInt) → String × List ExhRecord →
      Except String (List (Team × JSInt)) := fun trs entry =>
    match trs.find? (fun p => p.1.ISOCode == entry.1) with
    | none => Except.error "TypeError: Cannot read properties of undefined (reading FIBARanking)"
    | some home =>
      let rankHome := home.1.FIBARanking
      entry.2.foldlM (fun trs2 m =>
        match trs2.find? (fun p => p.1.ISOCode == m.Opponent) with
        | none => Except.error "TypeError: Cannot read properties of undefined (reading FIBARanking)"
        | some away =>
          let rankAway := away.1.FIBARanking
          let scores := (splitOnChar '-' m.Result.toList).map jsNumber
          let score1 := scores.getD 0 JSInt.nan
          let score2 := scores.getD 1 JSInt.nan
          let pointDiff := expectedPointDiffJS rankHome rankAway score1 score2
          Except.ok (if rankHome < rankAway then updFormJS entry.1 pointDiff trs2
            else updFormJS m.Opponent pointDiff trs2)) trs
  (exhibitions.foldlM processEntry teamRankings).map
    (fun trs => trs.foldl (fun acc p => objSet acc p.1.ISOCode p.2) [])

/-- Concrete input for the C2 counterexample: two teams with a rank gap of 2,
and one exhibition record whose score string `"ab-10"` is malformed. -/
def groupsNaN : List (String × List Team) :=
  [("A", [⟨"Canada", "CAN", 7⟩, ⟨"Australia", "AUS", 5⟩])]

/-- Exhibition data with the malformed score string `"ab-10"`. -/
def exhibitionsNaN : List (String × List ExhRecord) :=
  [("CAN", [⟨"AUS", "ab-10"⟩])]

/-- Concrete input for the amended C2 statement, abort case: the opponent
`"AUS"` referenced by the exhibition data is absent from the groups. -/
def groupsMissing : List (String × List Team) :=
  [("A", [⟨"Canada", "CAN", 7⟩])]

/-- Exhibition data referencing the absent team `"AUS"`. -/
def exhibitionsMissing : List (String × List ExhRecord) :=
  [("CAN", [⟨"AUS", "80-70"⟩])]

/-- Second concrete NaN input for the amended C2 statement (home side is the
favorite this time, and the malformed fragment is the second one). -/
def groupsNaN2 : List (String × List Team) :=
  [("B", [⟨"Germany", "GER", 1⟩, ⟨"France", "FRA", 3⟩])]

/-- Exhibition data with the malformed score string `"7-x"`. -/
def exhibitionsNaN2 : List (String × List ExhRecord) :=
  [("GER", [⟨"FRA", "7-x"⟩])]

/-- Embeds `updateTeamForm` (src/main.js lines 132-136) on the global
`teamForm` table (a string-keyed object, modeled as a total function updated
with `Function.update`): with `formFactor = 0.07`, first `teamForm[team1.ISOCode]`
is overwritten, then `teamForm[team2.ISOCode]` is overwritten reading the
already-updated table, exactly as the two source statements execute. -/
def updateTeamForm (teamForm : String → ℚ) (team1 team2 : Team)
    (score1 score2 : ℤ) : String → ℚ :=
  let f1 := Function.update teamForm team1.ISOCode
    (teamForm team1.ISOCode * (1 - 7/100) + ((score1 - score2 : ℤ) : ℚ) * (7/100))
  Function.update f1 team2.ISOCode
    (f1 team2.ISOCode * (1 - 7/100) + ((score2 - score1 : ℤ) : ℚ) * (7/100))

/-- The mutable simulation state threaded through every `simulateMatch` call:
the shared `teamForm` table and the index of the next `Math.random()` draw in
the ambient random stream. -/
structure SimState where
  form : String → ℚ
  idx : ℕ

/-- Embeds the unrounded `score1` of `simulateMatch` (src/main.js line 168):
`Math.floor(Math.random() * 15) + baseScore + rankDiff + formDiff +
randomFactor`, where `rankDiff = (rank2 - rank1) * 0.65`,
`formDiff = (form1 - form2) * 0.35` and `randomFactor = Math.random() * 10 - 4`.
The three `Math.random()` draws of one simulated match are `rand st.idx`
(the shared random factor, drawn first in the source), `rand (st.idx + 1)`
(team 1's variance term) and `rand (st.idx + 2)` (team 2's variance term). -/
def simScore1 (rand : ℕ → ℚ) (ex : ExhMap) (team1 team2 : Team) (st : SimState) : ℚ :=
  ((⌊rand (st.idx + 1) * 15⌋ : ℤ) : ℚ) +
    (getBaseScore ex team1.ISOCode team2.ISOCode : ℚ) +
    ((team2.FIBARanking - team1.FIBARanking : ℤ) : ℚ) * (65/100) +
    (st.form team1.ISOCode - st.form team2.ISOCode) * (35/100) +
    (rand st.idx * 10 - 4)

/-- Embeds the unrounded `score2` of `simulateMatch` (src/main.js line 169):
the same expression with the rank, form and shared-random terms negated and an
independent variance draw. -/
def simScore2 (rand : ℕ → ℚ) (ex : ExhMap) (team1 team2 : Team) (st : SimState) : ℚ :=
  ((⌊rand (st.idx + 2) * 15⌋ : ℤ) : ℚ) +
    (getBaseScore ex team1.ISOCode team2.ISOCode : ℚ) -
    ((team2.FIBARanking - team1.FIBARanking : ℤ) : ℚ) * (65/100) -
    (st.form team1.ISOCode - st.form team2.ISOCode) * (35/100) -
    (rand st.idx * 10 - 4)

/-- Embeds `simulateMatch` (src/main.js lines 163-175): the two unrounded
scores are rounded with `Math.round`, `updateTeamForm` is called on the
rounded result, and the state advances past the three consumed random draws. -/
def simulateMatch (rand : ℕ → ℚ) (ex : ExhMap) (team1 team2 : Team)
    (st : SimState) : (ℤ × ℤ) × SimState :=
  let result : ℤ × ℤ :=
    (round (simScore1 rand ex team1 team2 st), round (simScore2 rand ex team1 team2 st))
  (result, ⟨updateTeamForm st.form team1 team2 result.1 result.2, st.idx + 3⟩)

/-- A group match result as pushed onto `results[group]`
(src/main.js lines 225-230): the two team names and the simulated scores. -/
structure MatchRes where
  team1 : String
  team2 : String
  score1 : ℤ
  score2 : ℤ
deriving DecidableEq

/-- Embeds the body of `createRoundRobin` for one group (src/main.js lines
212-232): the fixed 3-round schedule over `teams[0..3]`, each match simulated
in list order and appended to the group's result list.  A group with fewer
than 4 teams makes the JavaScript code dereference an undefined array slot
inside `simulateMatch` (modeled as `Except.error`); teams beyond the fourth
are silently ignored, as in the source. -/
def roundRobinGroup (rand : ℕ → ℚ) (ex : ExhMap) (teams : List Team)
    (st : SimState) : Except String (List MatchRes × SimState) :=
  match teams with
  | t0 :: t1 :: t2 :: t3 :: _ =>
    let rounds := [[(t0, t1), (t2, t3)], [(t0, t2), (t1, t3)], [(t0, t3), (t1, t2)]]
    Except.ok (rounds.foldl (fun acc rnd =>
      rnd.foldl (fun acc2 m =>
        let r := simulateMatch rand ex m.1 m.2 acc2.2
        (acc2.1 ++ [⟨m.1.Team, m.2.Team, r.1.1, r.1.2⟩], r.2)) acc) ([], st))
  | _ => Except.error "TypeError: Cannot read properties of undefined"

/-- Embeds `createRoundRobin` (src/main.js lines 209-236) over the ordered
group list, threading the shared form/random state through the groups. -/
def createRoundRobin (rand : ℕ → ℚ) (ex : ExhMap)
    (groups : List (String × List Team)) (st : SimState) :
    Except String (List (String × List MatchRes) × SimState) :=
  groups.foldlM (fun acc g =>
    (roundRobinGroup rand ex g.2 acc.2).map (fun p => (acc.1 ++ [(g.1, p.1)], p.2)))
    ([], st)

/-- A per-team standings record as built by `rankTeams`
(src/main.js lines 290-297): the team's static data plus the accumulated
points, scored, allowed, wins and losses columns. -/
structure StandTeam extends Team where
  points : ℤ
  scored : ℤ
  allowed : ℤ
  wins : ℤ
  losses : ℤ
deriving DecidableEq

instance : Inhabited StandTeam :=
  ⟨⟨⟨"", "", 0⟩, 0, 0, 0, 0, 0⟩⟩

/-- Models `teams.find(t => t.Team === name)`: the first entry with the given
display name, or `none` (JavaScript `undefined`). -/
def findStanding (name : String) : List StandTeam → Option StandTeam
  | [] => none
  | x :: xs => if x.Team = name then some x else findStanding name xs

/-- Models an in-place mutation of the object returned by
`teams.find(t => t.Team === name)`: the FIRST entry with the given name is
replaced by `f` applied to it; all other entries are untouched. -/
def updStanding (name : String) (f : StandTeam → StandTeam) :
    List StandTeam → List StandTeam
  | [] => []
  | x :: xs => if x.Team = name then f x :: xs else x :: updStanding name f xs

/-- The `team1.scored += match.score1; team1.allowed += match.score2`
mutation (src/main.js lines 302-303). -/
def addScored1 (m : MatchRes) (t : StandTeam) : StandTeam :=
  { t with scored := t.scored + m.score1, allowed := t.allowed + m.score2 }

/-- The `team2.scored += match.score2; team2.allowed += match.score1`
mutation (src/main.js lines 304-305). -/
def addScored2 (m : MatchRes) (t : StandTeam) : StandTeam :=
  { t with scored := t.scored + m.score2, allowed := t.allowed + m.score1 }

/-- The tie-break `team.scored += 1` mutation (src/main.js line 309). -/
def bumpScored (t : StandTeam) : StandTeam :=
  { t with scored := t.scored + 1 }

/-- The winner half of `processTeamOneWin`/`processTeamTwoWin`
(src/main.js lines 312-322): `points += 2; wins += 1`. -/
def addWin (t : StandTeam) : StandTeam :=
  { t with points := t.points + 2, wins := t.wins + 1 }

/-- The loser half of `processTeamOneWin`/`processTeamTwoWin`
(src/main.js lines 312-322): `losses += 1`. -/
def addLoss (t : StandTeam) : StandTeam :=
  { t with losses := t.losses + 1 }

/-- Embeds the body of the `results[group].forEach(match => ...)` callback of
`rankTeams` (src/main.js lines 299-325) as a state transformer on the
standings list: accumulate scored/allowed on both sides, re-read the two
(mutated) records, award the tie-break `scored` bonus when the CUMULATIVE
scored totals are equal (to `team1` exactly when its FIBA ranking is
numerically smaller, else to `team2`), then award win/loss from the original
match scores.  A match name absent from the list makes the JavaScript code
throw a `TypeError` (modeled as `Except.error`); the inner re-lookup cannot
fail because updates preserve names. -/
def processMatch (st : List StandTeam) (m : MatchRes) :
    Except String (List StandTeam) :=
  match findStanding m.team1 st, findStanding m.team2 st with
  | some _, some _ =>
    let st2 := updStanding m.team2 (addScored2 m)
      (updStanding m.team1 (addScored1 m) st)
    match findStanding m.team1 st2, findStanding m.team2 st2 with
    | some t1, some t2 =>
      let st3 :=
        if t1.scored = t2.scored then
          if t1.FIBARanking < t2.FIBARanking then
            updStanding m.team1 bumpScored st2
          else
            updStanding m.team2 bumpScored st2
        else st2
      Except.ok (if m.score1 > m.score2 then
          updStanding m.team2 addLoss (updStanding m.team1 addWin st3)
        else
          updStanding m.team1 addLoss (updStanding m.team2 addWin st3))
    | _, _ => Except.error "unreachable: updates preserve team names"
  | _, _ => Except.error "TypeError: Cannot read properties of undefined (reading scored)"

/-- The comparator of `rankTeams` and `getTopEightTeams` (src/main.js lines
327 and 345), `(a, b) => b.points - a.points || (b.scored - b.allowed) -
(a.scored - a.allowed)`, as a "may come before" boolean relation: `a` may
precede `b` iff the comparator is non-positive, i.e. points descending, then
`(scored - allowed)` differential descending. -/
def standingsLE (a b : StandTeam) : Bool :=
  decide (b.points < a.points) ||
    (decide (b.points = a.points) &&
      decide (b.scored - b.allowed ≤ a.scored - a.allowed))

/-- Models `teams.sort(comparator)` (a stable sort in JavaScript engines,
as required by ES2019) with a stable merge sort under `standingsLE`. -/
def sortStandings (l : List StandTeam) : List StandTeam :=
  l.mergeSort standingsLE

/-- Embeds `rankTeams` for one group (src/main.js lines 287-332): fresh
zeroed standings records for the group's teams, the match results folded in
schedule order, and the final sort.  (The source maps this computation over
the groups object; the per-group computation is the claim-relevant part.) -/
def rankTeams (teams : List Team) (results : List MatchRes) :
    Except String (List StandTeam) :=
  (results.foldlM processMatch (teams.map (fun t =>
    { toTeam := t, points := 0, scored := 0, allowed := 0, wins := 0, losses := 0 }))).map
    sortStandings

/-- Concrete standings list for the C4 witness. -/
def wStand : List StandTeam :=
  [⟨⟨"Canada", "CAN", 7⟩, 0, 0, 0, 0, 0⟩, ⟨⟨"Australia", "AUS", 5⟩, 0, 0, 0, 0, 0⟩]

/-- Concrete match result for the C4 witness. -/
def wMatch : MatchRes := ⟨"Canada", "Australia", 80, 75⟩

/-- Concrete witness team (group position 0). -/
def wTeamA : Team := ⟨"Canada", "CAN", 7⟩

/-- Concrete witness team (group position 1). -/
def wTeamB : Team := ⟨"Australia", "AUS", 5⟩

/-- Concrete witness team (group position 2). -/
def wTeamC : Team := ⟨"Greece", "GRE", 14⟩

/-- Concrete witness team (group position 3). -/
def wTeamD : Team := ⟨"Spain", "ESP", 2⟩

/-- Concrete witness random stream: every draw is `1/2`. -/
def wRand : ℕ → ℚ := fun _ => 1/2

/-- Concrete witness exhibition map (empty: every base score is `⌊0/4⌋ - 6`). -/
def wEx : ExhMap := []

/-- Concrete witness initial state: all forms `0`, random index `0`. -/
def wSt : SimState := ⟨fun _ => 0, 0⟩

/-- The three groups' final standings as consumed by `getTopEightTeams`
(src/main.js lines 347-349 access `rankings.A`, `rankings.B`, `rankings.C`). -/
structure Rankings where
  A : List StandTeam
  B : List StandTeam
  C : List StandTeam

/-- Embeds `getTopEightTeams` (src/main.js lines 344-352): the three
place-pools (group winners, runners-up, third-place teams), each re-sorted by
the shared standings comparator, concatenated and truncated to 8 with
`slice(0, 8)`.  The source indexes `rankings.X[0..2]`; those accesses are
always in range for the 4-team group standings this function receives, which
the theorem's hypotheses make explicit (`getD` supplies an irrelevant default
for the out-of-range case the source never exercises). -/
def getTopEightTeams (r : Rankings) : List StandTeam :=
  let rankGroups := fun (ts : List StandTeam) => ts.mergeSort standingsLE
  let firstPlaceTeams := rankGroups
    [r.A.getD 0 default, r.B.getD 0 default, r.C.getD 0 default]
  let secondPlaceTeams := rankGroups
    [r.A.getD 1 default, r.B.getD 1 default, r.C.getD 1 default]
  let thirdPlaceTeams := rankGroups
    [r.A.getD 2 default, r.B.getD 2 default, r.C.getD 2 default]
  (firstPlaceTeams ++ secondPlaceTeams ++ thirdPlaceTeams).take 8

/-- Embeds the pot-building loop of `getEliminationMatches` (src/main.js
lines 363-367): `pots[Math.floor(i / 2)].push(teams[i])`. -/
def potsOf {α : Type} (teams : List α) : List (List α) :=
  teams.enum.foldl
    (fun ps p => ps.set (p.1 / 2) (ps.getD (p.1 / 2) [] ++ [p.2]))
    [[], [], [], []]

/-- Embeds `getEliminationMatches` (src/main.js lines 362-376): quarterfinal
`i` is `[pots[i][0], pots[3 - i][1]]` for `i = 0..3` (matches as pairs). -/
def getEliminationMatches {α : Type} [Inhabited α] (teams : List α) :
    List (α × α) :=
  let pots := potsOf teams
  (List.range 4).map (fun i =>
    ((pots.getD i []).getD 0 default, (pots.getD (3 - i) []).getD 1 default))

/-- The elimination-results object of `getEliminationResults`
(src/main.js line 392): each stage holds `{ match, result }` pairs. -/
structure ElimResults where
  quarterfinals : List ((Team × Team) × (ℤ × ℤ))
  semifinals : List ((Team × Team) × (ℤ × ℤ))
  finals : List ((Team × Team) × (ℤ × ℤ))
  bronze : List ((Team × Team) × (ℤ × ℤ))
deriving DecidableEq

/-- The advancing team of `result.team1 > result.team2 ? match[0] : match[1]`
(src/main.js lines 397, 403): an exact tie advances the second team. -/
def matchWinner (m : Team × Team) (r : ℤ × ℤ) : Team :=
  if r.1 > r.2 then m.1 else m.2

/-- The eliminated team of the same comparison (src/main.js line 404). -/
def matchLoser (m : Team × Team) (r : ℤ × ℤ) : Team :=
  if r.1 > r.2 then m.2 else m.1

/-- Embeds `getEliminationResults` (src/main.js lines 390-414): each
quarterfinal is simulated in bracket order and its winner collected; the
semifinals pair winners `0 vs 1` and `2 vs 3`; each semifinal winner goes to
the final and each loser to the bronze match, preserving pairing position;
then exactly one final and one bronze match are simulated (final first), all
through `simulateMatch` on the threaded state.  Fewer than 4 quarterfinal
winners would make the source dereference `undefined` (modeled as
`Except.error`); extra winners beyond 4 are ignored, as in the source. -/
def getEliminationResults (rand : ℕ → ℚ) (ex : ExhMap)
    (quarterfinals : List (Team × Team)) (st : SimState) :
    Except String (ElimResults × SimState) :=
  let qf := quarterfinals.foldl (fun acc m =>
      let r := simulateMatch rand ex m.1 m.2 acc.2
      ((acc.1.1 ++ [(m, r.1)], acc.1.2 ++ [matchWinner m r.1]), r.2))
    (([], []), st)
  match qf.1.2 with
  | w0 :: w1 :: w2 :: w3 :: _ =>
    let sf1 := simulateMatch rand ex w0 w1 qf.2
    let sf2 := simulateMatch rand ex w2 w3 sf1.2
    let fr := simulateMatch rand ex (matchWinner (w0, w1) sf1.1)
      (matchWinner (w2, w3) sf2.1) sf2.2
    let br := simulateMatch rand ex (matchLoser (w0, w1) sf1.1)
      (matchLoser (w2, w3) sf2.1) fr.2
    Except.ok
      ({ quarterfinals := qf.1.1,
         semifinals := [((w0, w1), sf1.1), ((w2, w3), sf2.1)],
         finals := [((matchWinner (w0, w1) sf1.1, matchWinner (w2, w3) sf2.1), fr.1)],
         bronze := [((matchLoser (w0, w1) sf1.1, matchLoser (w2, w3) sf2.1), br.1)] },
       br.2)
  | _ => Except.error "TypeError: Cannot read properties of undefined"

/-- Concrete group-A standings for the C6 witness. -/
def wRankA : List StandTeam :=
  [⟨⟨"TeamA0", "A0", 1⟩, 6, 10, 5, 3, 0⟩, ⟨⟨"TeamA1", "A1", 2⟩, 4, 9, 6, 2, 1⟩,
   ⟨⟨"TeamA2", "A2", 3⟩, 2, 8, 7, 1, 2⟩]

/-- Concrete group-B standings for the C6 witness. -/
def wRankB : List StandTeam :=
  [⟨⟨"TeamB0", "B0", 4⟩, 6, 11, 5, 3, 0⟩, ⟨⟨"TeamB1", "B1", 5⟩, 4, 8, 6, 2, 1⟩,
   ⟨⟨"TeamB2", "B2", 6⟩, 2, 7, 7, 1, 2⟩]

/-- Concrete group-C standings for the C6 witness. -/
def wRankC : List StandTeam :=
  [⟨⟨"TeamC0", "C0", 7⟩, 6, 12, 5, 3, 0⟩, ⟨⟨"TeamC1", "C1", 8⟩, 4, 7, 6, 2, 1⟩,
   ⟨⟨"TeamC2", "C2", 9⟩, 2, 6, 7, 1, 2⟩]

/-- Claim C1 (status code_bug), evaluation at the failing input.  The code's
own JSDoc example (src/main.js lines 80-83) says `expectedPointDiff(10, 30,
90, 60)` "returns adjusted positive margin", i.e. `round(30 / 3) = 10`, and
the claim says the same; but because the source compares against the
uninitialized `margin`, the function returns `0` there — indeed it returns
`0` for EVERY score pair once the rank gap exceeds 10. -/
theorem expectedPointDiff_failing_input :
    expectedPointDiff 10 30 90 60 = 0 ∧
      ∀ s1 s2 : ℤ, expectedPointDiff 10 30 s1 s2 = 0 := by
  constructor
  · simp [expectedPointDiff]
  · intro s1 s2
    simp [expectedPointDiff]

/-- Claim C3 (corrected), counterexample.  With `exC3` (each team: two
exhibition games of total 20 points), the source computes each team's value as
the SUM of per-match floored halves, `10 + 10 = 20`, giving
`⌊40 / 4⌋ - 6 = 4`; the claim's formula averages across the team's matches,
giving `Ti = 10` and `⌊20 / 4⌋ - 6 = -1`.  So `getBaseScore` does not equal
the claimed formula. -/
theorem getBaseScore_counterexample :
    getBaseScore exC3 "CAN" "AUS" = 4 ∧
      baseScoreSpec exC3 "CAN" "AUS" = -1 ∧
      getBaseScore exC3 "CAN" "AUS" ≠ baseScoreSpec exC3 "CAN" "AUS" := by
  have hC : List.lookup "CAN" exC3 = some [⟨"AUS", 10, 10⟩, ⟨"AUS", 10, 10⟩] := by
    decide
  have hA : List.lookup "AUS" exC3 = some [⟨"CAN", 10, 10⟩, ⟨"CAN", 10, 10⟩] := by
    decide
  have h1 : getBaseScore exC3 "CAN" "AUS" = 4 := by
    unfold getBaseScore getTotalPointsForTeam
    rw [hC, hA]
    norm_num
  have h2 : baseScoreSpec exC3 "CAN" "AUS" = -1 := by
    unfold baseScoreSpec avgPerGameTotal
    rw [hC, hA]
    norm_num
  exact ⟨h1, h2, by rw [h1, h2]; decide⟩

/-- Claim C3 (corrected), amended statement: for teams with exhibition
histories `h1` and `h2`, `getBaseScore` equals `⌊(T1 + T2) / 4⌋ - 6` where
each `Ti` is the SUM over that team's matches of `⌊(s1 + s2) / 2⌋` — the floor
is applied per match and the per-match values are summed, never averaged over
the number of matches. -/
theorem getBaseScore_sum_formula (exhibitions : ExhMap) (team1 team2 : String)
    (h1 h2 : List ExhMatch)
    (hl1 : List.lookup team1 exhibitions = some h1)
    (hl2 : List.lookup team2 exhibitions = some h2) :
    getBaseScore exhibitions team1 team2 =
      ⌊((((h1.map (fun m => ⌊((m.score1 + m.score2 : ℤ) : ℚ) / 2⌋)).sum +
          (h2.map (fun m => ⌊((m.score1 + m.score2 : ℤ) : ℚ) / 2⌋)).sum : ℤ)) : ℚ) / 4⌋
        - 6 := by
  have key : ∀ (h : List ExhMatch) (a : ℤ),
      h.foldl (fun acc m => acc + ⌊((m.score1 + m.score2 : ℤ) : ℚ) / 2⌋) a =
        a + (h.map (fun m => ⌊((m.score1 + m.score2 : ℤ) : ℚ) / 2⌋)).sum := by
    intro h
    induction h with
    | nil => simp
    | cons x xs ih =>
      intro a
      rw [List.foldl_cons, ih, List.map_cons, List.sum_cons]
      ring
  unfold getBaseScore getTotalPointsForTeam
  rw [hl1, hl2]
  simp only [Option.getD_some]
  rw [key, key]
  simp

/-- Witness for `getBaseScore_sum_formula` at the concrete input `exC3`. -/
theorem getBaseScore_sum_formula_witness :
    getBaseScore exC3 "CAN" "AUS" =
      ⌊(((([⟨"AUS", 10, 10⟩, ⟨"AUS", 10, 10⟩] :
            List ExhMatch).map (fun m => ⌊((m.score1 + m.score2 : ℤ) : ℚ) / 2⌋)).sum +
          (([⟨"CAN", 10, 10⟩, ⟨"CAN", 10, 10⟩] :
            List ExhMatch).map (fun m => ⌊((m.score1 + m.score2 : ℤ) : ℚ) / 2⌋)).sum : ℤ) : ℚ) / 4⌋
        - 6 :=
  getBaseScore_sum_formula exC3 "CAN" "AUS" _ _ (by decide) (by decide)

/-- Claim C8 (confirmed): for rank gaps of at most 10, `expectedPointDiff`
returns `round((actualDiff - (4 + 26 * (rankGap / 30) ^ 1.5)) / 3)`; and for
equal ranks with equal scores it returns `round((0 - 4) / 3)`, which is `-1`. -/
theorem expectedPointDiff_closeGap (rankHome rankAway s1 s2 : ℤ)
    (h : (rankHome - rankAway).natAbs ≤ 10) :
    expectedPointDiff rankHome rankAway s1 s2 =
      round (((actualPointDiff rankHome rankAway s1 s2 : ℝ) -
        (4 + 26 * (((rankHome - rankAway).natAbs : ℝ) / 30) ^ (1.5 : ℝ))) / 3) ∧
    (∀ r s : ℤ, expectedPointDiff r r s s = round (((0 : ℝ) - 4) / 3)) ∧
    round (((0 : ℝ) - 4) / 3) = -1 := by
  refine ⟨?_, ?_, ?_⟩
  · rw [expectedPointDiff, if_neg (by omega)]
    norm_num [pointDiffCurve, baseDiff, maxDiff, scalingFactor]
  · intro r s
    rw [expectedPointDiff, if_neg (by simp)]
    have hcurve : pointDiffCurve (r - r).natAbs = 4 := by
      simp [pointDiffCurve, baseDiff, maxDiff, scalingFactor,
        Real.zero_rpow (by norm_num : (1.5 : ℝ) ≠ 0)]
    rw [hcurve]
    simp [actualPointDiff]
  · rw [round_eq]
    norm_num

/-- Witness for `expectedPointDiff_closeGap`: at equal ranks and equal scores
the function evaluates to `-1`. -/
theorem expectedPointDiff_closeGap_witness :
    expectedPointDiff 5 5 80 80 = -1 := by
  have h := expectedPointDiff_closeGap 5 5 80 80 (by decide)
  exact (h.2.1 5 80).trans h.2.2

/-- Claim C2 (corrected), counterexample.  With the malformed score string
`"ab-10"` (and a rank gap of 2), `getInitialForms` does NOT abort with a
configuration error: it returns normally, and the away team's form is `NaN` —
the corrupted value is silently propagated, contradicting the claim that
malformed input aborts the run and that a NaN never propagates. -/
theorem getInitialForms_nan_counterexample :
    getInitialForms groupsNaN exhibitionsNaN =
      Except.ok [("CAN", JSInt.int 0), ("AUS", JSInt.nan)] := by
  rfl

/-- Claim C2 (corrected), amended statement: a team referenced in exhibition
data that is absent from the groups mapping DOES abort the run, but only with
an uncaught `TypeError` from dereferencing `undefined` (not a reported
configuration diagnostic); a malformed score string does NOT abort — `Number()`
turns it into `NaN`, which propagates silently into the favorite's form. -/
theorem getInitialForms_amended :
    getInitialForms groupsMissing exhibitionsMissing =
      Except.error "TypeError: Cannot read properties of undefined (reading FIBARanking)" ∧
    getInitialForms groupsNaN2 exhibitionsNaN2 =
      Except.ok [("GER", JSInt.nan), ("FRA", JSInt.int 0)] := by
  exact ⟨rfl, rfl⟩

/-- Claim C9 (confirmed): `updateTeamForm` is exponential smoothing with
factor `0.07` applied symmetrically — each team's new form is its old form
times `0.93` plus its signed point differential times `0.07`, and the two
smoothing increments are negatives of each other.  Under repeated matches with
`score1 == score2` a team's form is multiplied by `0.93` each update, so it is
never exactly `0` after finitely many updates when it starts nonzero, while
`|form|` becomes smaller than any positive `ε` eventually. -/
theorem updateTeamForm_spec (tf : String → ℚ) (t1 t2 : Team) (s1 s2 s : ℤ)
    (h : t1.ISOCode ≠ t2.ISOCode) :
    updateTeamForm tf t1 t2 s1 s2 t1.ISOCode =
      tf t1.ISOCode * (1 - 7/100) + ((s1 - s2 : ℤ) : ℚ) * (7/100) ∧
    updateTeamForm tf t1 t2 s1 s2 t2.ISOCode =
      tf t2.ISOCode * (1 - 7/100) + ((s2 - s1 : ℤ) : ℚ) * (7/100) ∧
    ((s2 - s1 : ℤ) : ℚ) * (7/100) = -(((s1 - s2 : ℤ) : ℚ) * (7/100)) ∧
    (∀ n : ℕ, ((fun f => updateTeamForm f t1 t2 s s)^[n] tf) t1.ISOCode =
      tf t1.ISOCode * (93/100) ^ n) ∧
    (tf t1.ISOCode ≠ 0 →
      ∀ n : ℕ, ((fun f => updateTeamForm f t1 t2 s s)^[n] tf) t1.ISOCode ≠ 0) ∧
    (∀ ε : ℚ, 0 < ε → ∃ N : ℕ, ∀ n ≥ N,
      |((fun f => updateTeamForm f t1 t2 s s)^[n] tf) t1.ISOCode| < ε) := by
  have p1 : ∀ (g : String → ℚ) (a b : ℤ), updateTeamForm g t1 t2 a b t1.ISOCode =
      g t1.ISOCode * (1 - 7/100) + ((a - b : ℤ) : ℚ) * (7/100) := by
    intro g a b
    unfold updateTeamForm
    rw [Function.update_noteq h, Function.update_same]
  have p2 : updateTeamForm tf t1 t2 s1 s2 t2.ISOCode =
      tf t2.ISOCode * (1 - 7/100) + ((s2 - s1 : ℤ) : ℚ) * (7/100) := by
    unfold updateTeamForm
    rw [Function.update_same, Function.update_noteq (Ne.symm h)]
  have hstep : ∀ g : String → ℚ, updateTeamForm g t1 t2 s s t1.ISOCode =
      g t1.ISOCode * (93/100) := by
    intro g
    rw [p1]
    push_cast
    ring
  have p4 : ∀ n : ℕ, ((fun f => updateTeamForm f t1 t2 s s)^[n] tf) t1.ISOCode =
      tf t1.ISOCode * (93/100) ^ n := by
    intro n
    induction n with
    | zero => simp
    | succ n ih =>
      rw [Function.iterate_succ_apply']
      calc updateTeamForm ((fun f => updateTeamForm f t1 t2 s s)^[n] tf) t1 t2 s s t1.ISOCode
          = ((fun f => updateTeamForm f t1 t2 s s)^[n] tf) t1.ISOCode * (93/100) := hstep _
        _ = tf t1.ISOCode * (93/100) ^ n * (93/100) := by rw [ih]
        _ = tf t1.ISOCode * (93/100) ^ (n + 1) := by ring
  refine ⟨p1 tf s1 s2, p2, by push_cast; ring, p4, ?_, ?_⟩
  · intro h0 n
    rw [p4]
    exact mul_ne_zero h0 (pow_ne_zero n (by norm_num))
  · intro ε hε
    rcases eq_or_ne (tf t1.ISOCode) 0 with h0 | h0
    · refine ⟨0, fun n _ => ?_⟩
      rw [p4, h0]
      simpa using hε
    · have hpos : 0 < |tf t1.ISOCode| := abs_pos.mpr h0
      obtain ⟨N, hN⟩ := exists_pow_lt_of_lt_one (x := ε / |tf t1.ISOCode|)
        (div_pos hε hpos) (by norm_num : (93/100 : ℚ) < 1)
      refine ⟨N, fun n hn => ?_⟩
      rw [p4, abs_mul, abs_pow, abs_of_pos (by norm_num : (0 : ℚ) < 93/100)]
      have hmono : ((93:ℚ)/100) ^ n ≤ (93/100) ^ N :=
        pow_le_pow_of_le_one (by norm_num) (by norm_num) hn
      calc |tf t1.ISOCode| * (93/100) ^ n
          ≤ |tf t1.ISOCode| * (93/100) ^ N := by
            exact mul_le_mul_of_nonneg_left hmono (abs_nonneg _)
        _ < |tf t1.ISOCode| * (ε / |tf t1.ISOCode|) := by
            exact mul_lt_mul_of_pos_left hN hpos
        _ = ε := mul_div_cancel₀ ε (ne_of_gt hpos)

/-- Witness for `updateTeamForm_spec`: concrete teams with distinct codes; one
update with scores `3:5` from form `1` gives `0.79`, two zero-margin updates
give `0.93²`, and after three zero-margin updates the form is still nonzero. -/
theorem updateTeamForm_spec_witness :
    updateTeamForm (fun _ => 1) ⟨"Canada", "CAN", 7⟩ ⟨"Australia", "AUS", 5⟩ 3 5 "CAN" = 79/100 ∧
    ((fun f => updateTeamForm f ⟨"Canada", "CAN", 7⟩ ⟨"Australia", "AUS", 5⟩ 4 4)^[2]
      (fun _ => 1)) "CAN" = 8649/10000 ∧
    ((fun f => updateTeamForm f ⟨"Canada", "CAN", 7⟩ ⟨"Australia", "AUS", 5⟩ 4 4)^[3]
      (fun _ => 1)) "CAN" ≠ 0 := by
  have h := updateTeamForm_spec (fun _ => 1) ⟨"Canada", "CAN", 7⟩ ⟨"Australia", "AUS", 5⟩
    3 5 4 (by decide)
  refine ⟨h.1.trans (by norm_num), (h.2.2.2.1 2).trans (by norm_num),
    h.2.2.2.2.1 (by norm_num) 3⟩

/-- Claim C10 (confirmed): in `simulateMatch` the rank-gap term, the form-gap
term and the shared random factor enter the two unrounded scores with opposite
signs and cancel: the sum of the two unrounded scores is the two variance
draws plus twice the base score, for every team pair, every form table and
every outcome of the random draws — so the total does not depend on either
team's ranking or form (replacing the rankings and the form table leaves the
sum unchanged). -/
theorem simulateMatch_total_independent (rand : ℕ → ℚ) (ex : ExhMap)
    (t1 t2 : Team) (st : SimState) :
    simScore1 rand ex t1 t2 st + simScore2 rand ex t1 t2 st =
      ((⌊rand (st.idx + 1) * 15⌋ : ℤ) : ℚ) + ((⌊rand (st.idx + 2) * 15⌋ : ℤ) : ℚ) +
        2 * (getBaseScore ex t1.ISOCode t2.ISOCode : ℚ) ∧
    ∀ (r1 r2 : ℤ) (f : String → ℚ),
      simScore1 rand ex { t1 with FIBARanking := r1 } { t2 with FIBARanking := r2 }
          { st with form := f } +
        simScore2 rand ex { t1 with FIBARanking := r1 } { t2 with FIBARanking := r2 }
          { st with form := f } =
      simScore1 rand ex t1 t2 st + simScore2 rand ex t1 t2 st := by
  constructor
  · unfold simScore1 simScore2
    ring
  · intro r1 r2 f
    unfold simScore1 simScore2
    ring

/-- Helper: among the six scheduled pairs of a 4-team round robin, every
unordered pair of distinct team names occurs exactly once. -/
theorem roundRobin_pair_once (a b c d : String) (hnd : [a, b, c, d].Nodup) :
    ∀ x ∈ [a, b, c, d], ∀ y ∈ [a, b, c, d], x ≠ y →
      ([(a, b), (c, d), (a, c), (b, d), (a, d), (b, c)] :
          List (String × String)).countP
        (fun pr => (pr.1 == x && pr.2 == y) || (pr.1 == y && pr.2 == x)) = 1 := by
  simp only [List.nodup_cons, List.mem_cons, List.not_mem_nil, or_false,
    not_or, List.nodup_nil, and_true] at hnd
  obtain ⟨⟨nab, nac, nad⟩, ⟨nbc, nbd⟩, ncd, -⟩ := hnd
  intro x hx y hy hxy
  simp only [List.mem_cons, List.not_mem_nil, or_false] at hx hy
  rcases hx with rfl | rfl | rfl | rfl <;> rcases hy with rfl | rfl | rfl | rfl <;>
    first
      | exact absurd rfl hxy
      | simp [List.countP_cons, beq_iff_eq, nab, nac, nad, nbc, nbd, ncd,
          Ne.symm nab, Ne.symm nac, Ne.symm nad, Ne.symm nbc, Ne.symm nbd, Ne.symm ncd]

/-- Claim C5 (confirmed): for a 4-team group `[A, B, C, D]`,
`createRoundRobin` simulates exactly 6 matches in the fixed order
round 1 = (A-B, C-D), round 2 = (A-C, B-D), round 3 = (A-D, B-C), appending
them to the group's result list; 18 random draws (3 per match) are consumed;
the per-group results compose into `createRoundRobin`'s group map; and when
the four team names are distinct, each unordered pair of teams meets exactly
once. -/
theorem createRoundRobin_schedule (rand : ℕ → ℚ) (ex : ExhMap) (st : SimState)
    (g : String) (A B C D : Team) (teams : List Team)
    (hts : teams = [A, B, C, D]) :
    (roundRobinGroup rand ex teams st).map
        (fun p => p.1.map (fun m => (m.team1, m.team2))) =
      Except.ok [(A.Team, B.Team), (C.Team, D.Team), (A.Team, C.Team),
        (B.Team, D.Team), (A.Team, D.Team), (B.Team, C.Team)] ∧
    (roundRobinGroup rand ex teams st).map (fun p => p.1.length) = Except.ok 6 ∧
    (roundRobinGroup rand ex teams st).map (fun p => p.2.idx) =
      Except.ok (st.idx + 18) ∧
    createRoundRobin rand ex [(g, teams)] st =
      (roundRobinGroup rand ex teams st).map (fun p => ([(g, p.1)], p.2)) ∧
    ([A.Team, B.Team, C.Team, D.Team].Nodup →
      ∀ x ∈ [A, B, C, D], ∀ y ∈ [A, B, C, D], x.Team ≠ y.Team →
        (roundRobinGroup rand ex teams st).map
            (fun p => p.1.countP (fun m => (m.team1 == x.Team && m.team2 == y.Team) ||
              (m.team1 == y.Team && m.team2 == x.Team))) = Except.ok 1) := by
  subst hts
  refine ⟨rfl, rfl, ?_, rfl, ?_⟩
  · show Except.ok (st.idx + 3 + 3 + 3 + 3 + 3 + 3) = Except.ok (st.idx + 18)
    norm_num
  · intro hnd x hx y hy hxy
    have hx4 : x.Team ∈ [A.Team, B.Team, C.Team, D.Team] := by
      simp only [List.mem_cons, List.not_mem_nil, or_false] at hx ⊢
      rcases hx with rfl | rfl | rfl | rfl <;> simp
    have hy4 : y.Team ∈ [A.Team, B.Team, C.Team, D.Team] := by
      simp only [List.mem_cons, List.not_mem_nil, or_false] at hy ⊢
      rcases hy with rfl | rfl | rfl | rfl <;> simp
    have hcount := roundRobin_pair_once A.Team B.Team C.Team D.Team hnd
      x.Team hx4 y.Team hy4 hxy
    show Except.ok (([(A.Team, B.Team), (C.Team, D.Team), (A.Team, C.Team),
        (B.Team, D.Team), (A.Team, D.Team), (B.Team, C.Team)] :
          List (String × String)).countP
        (fun pr => (pr.1 == x.Team && pr.2 == y.Team) ||
          (pr.1 == y.Team && pr.2 == x.Team))) = Except.ok 1
    rw [hcount]

/-- Witness for `createRoundRobin_schedule` on a concrete 4-team group with
distinct names: the schedule, match count, random-draw count and the
exactly-once property for the pair (position 0, position 3). -/
theorem createRoundRobin_schedule_witness :
    (roundRobinGroup wRand wEx [wTeamA, wTeamB, wTeamC, wTeamD] wSt).map
        (fun p => p.1.map (fun m => (m.team1, m.team2))) =
      Except.ok [(wTeamA.Team, wTeamB.Team), (wTeamC.Team, wTeamD.Team),
        (wTeamA.Team, wTeamC.Team), (wTeamB.Team, wTeamD.Team),
        (wTeamA.Team, wTeamD.Team), (wTeamB.Team, wTeamC.Team)] ∧
    (roundRobinGroup wRand wEx [wTeamA, wTeamB, wTeamC, wTeamD] wSt).map
        (fun p => p.1.length) = Except.ok 6 ∧
    (roundRobinGroup wRand wEx [wTeamA, wTeamB, wTeamC, wTeamD] wSt).map
        (fun p => p.2.idx) = Except.ok (wSt.idx + 18) ∧
    (roundRobinGroup wRand wEx [wTeamA, wTeamB, wTeamC, wTeamD] wSt).map
        (fun p => p.1.countP (fun m =>
          (m.team1 == wTeamA.Team && m.team2 == wTeamD.Team) ||
          (m.team1 == wTeamD.Team && m.team2 == wTeamA.Team))) = Except.ok 1 := by
  have h := createRoundRobin_schedule wRand wEx wSt "A" wTeamA wTeamB wTeamC wTeamD
    [wTeamA, wTeamB, wTeamC, wTeamD] rfl
  exact ⟨h.1, h.2.1, h.2.2.1,
    h.2.2.2.2 (by decide) wTeamA (by simp) wTeamD (by simp) (by decide)⟩

/-- Helper: looking up the updated name after `updStanding` returns the
updated first match, provided the update preserves the `Team` name field. -/
theorem findStanding_updStanding_same (name : String) (f : StandTeam → StandTeam)
    (hf : ∀ x, (f x).Team = x.Team) (l : List StandTeam) :
    findStanding name (updStanding name f l) = (findStanding name l).map f := by
  induction l with
  | nil => rfl
  | cons x xs ih =>
    by_cases hx : x.Team = name
    · simp [updStanding, findStanding, hx, hf x]
    · simp [updStanding, findStanding, hx, ih]

/-- Helper: looking up any other name after `updStanding` is unchanged,
provided the update preserves the `Team` name field. -/
theorem findStanding_updStanding_other (name n : String) (f : StandTeam → StandTeam)
    (hf : ∀ x, (f x).Team = x.Team) (hne : n ≠ name) (l : List StandTeam) :
    findStanding n (updStanding name f l) = findStanding n l := by
  induction l with
  | nil => rfl
  | cons x xs ih =>
    by_cases hx : x.Team = name
    · simp [updStanding, findStanding, hx, hf x, Ne.symm hne]
    · simp [updStanding, findStanding, hx, ih]

/-- Helper: the standings comparator is transitive. -/
theorem standingsLE_trans (a b c : StandTeam) (hab : standingsLE a b = true)
    (hbc : standingsLE b c = true) : standingsLE a c = true := by
  simp only [standingsLE, Bool.or_eq_true, Bool.and_eq_true, decide_eq_true_eq]
    at hab hbc ⊢
  omega

/-- Helper: the standings comparator is total. -/
theorem standingsLE_total (a b : StandTeam) :
    (standingsLE a b || standingsLE b a) = true := by
  simp only [standingsLE, Bool.or_eq_true, Bool.and_eq_true, decide_eq_true_eq,
    Bool.or_eq_true]
  omega

/-- Claim C4 (confirmed): processing one match of a group's result sequence
adds the match scores to both sides' scored/allowed; if the two teams'
CUMULATIVE scored totals are then exactly equal, 1 more is added to the scored
column of the team with the numerically lower FIBA ranking (points, wins and
losses unaffected); exactly one team receives 2 points and a win and the other
a loss — team1 precisely when `score1 > score2`, decided from the original
match scores (so a drawn match is a team-2 win, and no draw outcome exists);
every other team's record is untouched; and the final standings produced by
`rankTeams` are sorted by points descending, then scored-minus-allowed
descending. -/
theorem rankTeams_spec (st : List StandTeam) (m : MatchRes) (t1 t2 : StandTeam)
    (hf1 : findStanding m.team1 st = some t1)
    (hf2 : findStanding m.team2 st = some t2)
    (hne : m.team1 ≠ m.team2)
    (hr : t1.FIBARanking ≠ t2.FIBARanking) :
    ((processMatch st m).map (findStanding m.team1) = Except.ok (some
      { t1 with
        scored := t1.scored + m.score1 +
          (if t1.scored + m.score1 = t2.scored + m.score2 ∧
              t1.FIBARanking < t2.FIBARanking then 1 else 0),
        allowed := t1.allowed + m.score2,
        points := t1.points + (if m.score1 > m.score2 then 2 else 0),
        wins := t1.wins + (if m.score1 > m.score2 then 1 else 0),
        losses := t1.losses + (if m.score1 > m.score2 then 0 else 1) }) ∧
    (processMatch st m).map (findStanding m.team2) = Except.ok (some
      { t2 with
        scored := t2.scored + m.score2 +
          (if t1.scored + m.score1 = t2.scored + m.score2 ∧
              t2.FIBARanking < t1.FIBARanking then 1 else 0),
        allowed := t2.allowed + m.score1,
        points := t2.points + (if m.score1 > m.score2 then 0 else 2),
        wins := t2.wins + (if m.score1 > m.score2 then 0 else 1),
        losses := t2.losses + (if m.score1 > m.score2 then 1 else 0) }) ∧
    (∀ n, n ≠ m.team1 → n ≠ m.team2 →
      (processMatch st m).map (findStanding n) = Except.ok (findStanding n st))) ∧
    (∀ (teams : List Team) (results : List MatchRes) (out : List StandTeam),
      rankTeams teams results = Except.ok out →
      List.Sorted (fun a b => standingsLE a b = true) out) := by
  have e1 : findStanding m.team1 (updStanding m.team2 (addScored2 m)
      (updStanding m.team1 (addScored1 m) st)) = some (addScored1 m t1) := by
    rw [findStanding_updStanding_other m.team2 m.team1 (addScored2 m)
        (fun x => rfl) hne,
      findStanding_updStanding_same m.team1 (addScored1 m) (fun x => rfl), hf1]
    rfl
  have e2 : findStanding m.team2 (updStanding m.team2 (addScored2 m)
      (updStanding m.team1 (addScored1 m) st)) = some (addScored2 m t2) := by
    rw [findStanding_updStanding_same m.team2 (addScored2 m) (fun x => rfl),
      findStanding_updStanding_other m.team1 m.team2 (addScored1 m)
        (fun x => rfl) (Ne.symm hne), hf2]
    rfl
  constructor
  · refine ⟨?_, ?_, ?_⟩
    · simp only [processMatch, hf1, hf2, e1, e2, Except.map]
      split_ifs <;>
        simp only [findStanding_updStanding_other m.team2 m.team1 addLoss
            (fun x => rfl) hne,
          findStanding_updStanding_other m.team2 m.team1 addWin (fun x => rfl) hne,
          findStanding_updStanding_other m.team2 m.team1 bumpScored
            (fun x => rfl) hne,
          findStanding_updStanding_same m.team1 addWin (fun x => rfl),
          findStanding_updStanding_same m.team1 addLoss (fun x => rfl),
          findStanding_updStanding_same m.team1 bumpScored (fun x => rfl),
          e1, Option.map_some'] <;>
        simp_all only [addScored1, addScored2, addWin, addLoss, bumpScored,
          Except.ok.injEq, Option.some.injEq, StandTeam.mk.injEq, and_true,
          true_and, not_true] <;>
        omega
    · simp only [processMatch, hf1, hf2, e1, e2, Except.map]
      split_ifs <;>
        simp only [findStanding_updStanding_other m.team1 m.team2 addLoss
            (fun x => rfl) (Ne.symm hne),
          findStanding_updStanding_other m.team1 m.team2 addWin (fun x => rfl)
            (Ne.symm hne),
          findStanding_updStanding_other m.team1 m.team2 bumpScored
            (fun x => rfl) (Ne.symm hne),
          findStanding_updStanding_same m.team2 addWin (fun x => rfl),
          findStanding_updStanding_same m.team2 addLoss (fun x => rfl),
          findStanding_updStanding_same m.team2 bumpScored (fun x => rfl),
          e2, Option.map_some'] <;>
        simp_all only [addScored1, addScored2, addWin, addLoss, bumpScored,
          Except.ok.injEq, Option.some.injEq, StandTeam.mk.injEq, and_true,
          true_and, not_true] <;>
        omega
    · intro n hn1 hn2
      simp only [processMatch, hf1, hf2, e1, e2, Except.map]
      split_ifs <;>
        simp only [findStanding_updStanding_other m.team1 n addLoss
            (fun x => rfl) hn1,
          findStanding_updStanding_other m.team1 n addWin (fun x => rfl) hn1,
          findStanding_updStanding_other m.team1 n bumpScored (fun x => rfl) hn1,
          findStanding_updStanding_other m.team1 n (addScored1 m)
            (fun x => rfl) hn1,
          findStanding_updStanding_other m.team2 n addLoss (fun x => rfl) hn2,
          findStanding_updStanding_other m.team2 n addWin (fun x => rfl) hn2,
          findStanding_updStanding_other m.team2 n bumpScored (fun x => rfl) hn2,
          findStanding_updStanding_other m.team2 n (addScored2 m)
            (fun x => rfl) hn2]
  · intro teams results out hout
    unfold rankTeams at hout
    cases hfold : results.foldlM processMatch (teams.map (fun t =>
        { toTeam := t, points := 0, scored := 0, allowed := 0, wins := 0,
          losses := 0 })) with
    | error e => rw [hfold] at hout; exact absurd hout (by simp [Except.map])
    | ok pre =>
      rw [hfold] at hout
      simp only [Except.map] at hout
      cases hout
      exact List.sorted_mergeSort standingsLE_trans standingsLE_total pre

/-- Witness for `rankTeams_spec`: two zeroed standings and a `80:75` match —
team 1 ends with 80 scored, 75 allowed, 2 points, 1 win, 0 losses; and the
empty group's standings are (vacuously) sorted. -/
theorem rankTeams_spec_witness :
    (processMatch wStand wMatch).map (findStanding "Canada") =
      Except.ok (some ⟨⟨"Canada", "CAN", 7⟩, 2, 80, 75, 1, 0⟩) ∧
    List.Sorted (fun a b => standingsLE a b = true) ([] : List StandTeam) := by
  have h := rankTeams_spec wStand wMatch
    ⟨⟨"Canada", "CAN", 7⟩, 0, 0, 0, 0, 0⟩ ⟨⟨"Australia", "AUS", 5⟩, 0, 0, 0, 0, 0⟩
    rfl rfl (by decide) (by decide)
  have hnil : rankTeams [] [] = Except.ok [] := by
    simp [rankTeams, sortStandings, List.mergeSort_nil, Except.map, pure, Except.pure]
  constructor
  · exact h.1.1.trans (by norm_num [wMatch, wStand])
  · exact h.2 [] [] [] hnil

/-- Helper: on any 8-element list, `getEliminationMatches` pairs positions
`(0,7), (2,5), (4,3), (6,1)` — that is, `pot[i][0]` against `pot[3-i][1]` for
the positional pots `(0-1, 2-3, 4-5, 6-7)`. -/
theorem getEliminationMatches_of_length_eight {α : Type} [Inhabited α]
    (l : List α) (h : l.length = 8) :
    getEliminationMatches l =
      [(l.getD 0 default, l.getD 7 default), (l.getD 2 default, l.getD 5 default),
       (l.getD 4 default, l.getD 3 default), (l.getD 6 default, l.getD 1 default)] := by
  rcases l with _ | ⟨x0, _ | ⟨x1, _ | ⟨x2, _ | ⟨x3, _ | ⟨x4, _ | ⟨x5, _ | ⟨x6,
    _ | ⟨x7, _ | ⟨x8, l⟩⟩⟩⟩⟩⟩⟩⟩⟩ <;> simp at h
  simp [getEliminationMatches, potsOf, List.enum, List.enumFrom, List.range_succ]

/-- Claim C6 (confirmed): the Bracket Seeder returns exactly 8 teams that
always include both top-2 teams of every group plus exactly 2 of the 3
third-place teams; the three place-pools are each internally sorted by points
descending then differential descending and concatenated in pool order,
truncated to 8; and the quarterfinal pairing is `pot[i][0]` versus
`pot[3-i][1]` for the positional pots `(0-1, 2-3, 4-5, 6-7)`. -/
theorem getTopEightTeams_spec (a0 a1 a2 b0 b1 b2 c0 c1 c2 : StandTeam)
    (ra rb rc : List StandTeam) (r : Rankings)
    (hA : r.A = a0 :: a1 :: a2 :: ra) (hB : r.B = b0 :: b1 :: b2 :: rb)
    (hC : r.C = c0 :: c1 :: c2 :: rc) :
    (getTopEightTeams r).length = 8 ∧
    (∀ x ∈ [a0, a1, b0, b1, c0, c1], x ∈ getTopEightTeams r) ∧
    (∃ t : List StandTeam, t.Subperm [a2, b2, c2] ∧ t.length = 2 ∧
      (getTopEightTeams r).Perm ([a0, b0, c0] ++ [a1, b1, c1] ++ t)) ∧
    (∃ p1 p2 p3 : List StandTeam,
      p1.Perm [a0, b0, c0] ∧ p2.Perm [a1, b1, c1] ∧ p3.Perm [a2, b2, c2] ∧
      List.Sorted (fun a b => standingsLE a b = true) p1 ∧
      List.Sorted (fun a b => standingsLE a b = true) p2 ∧
      List.Sorted (fun a b => standingsLE a b = true) p3 ∧
      getTopEightTeams r = p1 ++ p2 ++ p3.take 2) ∧
    (∀ u0 u1 u2 u3 u4 u5 u6 u7 : StandTeam,
      getEliminationMatches [u0, u1, u2, u3, u4, u5, u6, u7] =
        [(u0, u7), (u2, u5), (u4, u3), (u6, u1)]) ∧
    getEliminationMatches (getTopEightTeams r) =
      [((getTopEightTeams r).getD 0 default, (getTopEightTeams r).getD 7 default),
       ((getTopEightTeams r).getD 2 default, (getTopEightTeams r).getD 5 default),
       ((getTopEightTeams r).getD 4 default, (getTopEightTeams r).getD 3 default),
       ((getTopEightTeams r).getD 6 default, (getTopEightTeams r).getD 1 default)] := by
  have l1 : ([a0, b0, c0].mergeSort standingsLE).length = 3 :=
    List.length_mergeSort _
  have l2 : ([a1, b1, c1].mergeSort standingsLE).length = 3 :=
    List.length_mergeSort _
  have l3 : ([a2, b2, c2].mergeSort standingsLE).length = 3 :=
    List.length_mergeSort _
  have q1 : ([a0, b0, c0].mergeSort standingsLE).Perm [a0, b0, c0] :=
    List.mergeSort_perm _ _
  have q2 : ([a1, b1, c1].mergeSort standingsLE).Perm [a1, b1, c1] :=
    List.mergeSort_perm _ _
  have q3 : ([a2, b2, c2].mergeSort standingsLE).Perm [a2, b2, c2] :=
    List.mergeSort_perm _ _
  have hsplit : getTopEightTeams r =
      ([a0, b0, c0].mergeSort standingsLE) ++ ([a1, b1, c1].mergeSort standingsLE) ++
        ([a2, b2, c2].mergeSort standingsLE).take 2 := by
    unfold getTopEightTeams
    rw [hA, hB, hC]
    simp only [List.getD_cons_zero, List.getD_cons_succ]
    simp [List.take_append_eq_append_take, l1, l2, l3,
      List.take_of_length_le, List.length_append]
  refine ⟨?_, ?_, ?_, ?_, ?_, ?_⟩
  · rw [hsplit]
    simp [List.length_append, l1, l2, List.length_take, l3]
  · intro x hx
    rw [hsplit]
    simp only [List.mem_cons, List.not_mem_nil, or_false] at hx
    simp only [List.mem_append, q1.mem_iff, q2.mem_iff]
    rcases hx with rfl | rfl | rfl | rfl | rfl | rfl <;> simp
  · refine ⟨([a2, b2, c2].mergeSort standingsLE).take 2,
      ((List.take_sublist 2 _).subperm).trans q3.subperm, ?_, ?_⟩
    · simp [List.length_take, l3]
    · rw [hsplit, List.append_assoc]
      exact q1.append (q2.append (List.Perm.refl _))
  · exact ⟨_, _, _, q1, q2, q3,
      List.sorted_mergeSort standingsLE_trans standingsLE_total _,
      List.sorted_mergeSort standingsLE_trans standingsLE_total _,
      List.sorted_mergeSort standingsLE_trans standingsLE_total _, hsplit⟩
  · intro u0 u1 u2 u3 u4 u5 u6 u7
    simp [getEliminationMatches, potsOf, List.enum, List.enumFrom, List.range_succ]
  · refine getEliminationMatches_of_length_eight _ ?_
    rw [hsplit]
    simp [List.length_append, l1, l2, List.length_take, l3]

/-- Witness for `getTopEightTeams_spec` on three concrete group standings:
the seeder returns 8 teams, the group-A winner is among them, and the
quarterfinal pairing on 8 concrete teams follows the pot rule. -/
theorem getTopEightTeams_spec_witness :
    (getTopEightTeams ⟨wRankA, wRankB, wRankC⟩).length = 8 ∧
    (⟨⟨"TeamA0", "A0", 1⟩, 6, 10, 5, 3, 0⟩ : StandTeam) ∈
      getTopEightTeams ⟨wRankA, wRankB, wRankC⟩ ∧
    getEliminationMatches
        [(⟨⟨"TeamA0", "A0", 1⟩, 6, 10, 5, 3, 0⟩ : StandTeam),
         ⟨⟨"TeamB0", "B0", 4⟩, 6, 11, 5, 3, 0⟩, ⟨⟨"TeamC0", "C0", 7⟩, 6, 12, 5, 3, 0⟩,
         ⟨⟨"TeamA1", "A1", 2⟩, 4, 9, 6, 2, 1⟩, ⟨⟨"TeamB1", "B1", 5⟩, 4, 8, 6, 2, 1⟩,
         ⟨⟨"TeamC1", "C1", 8⟩, 4, 7, 6, 2, 1⟩, ⟨⟨"TeamA2", "A2", 3⟩, 2, 8, 7, 1, 2⟩,
         ⟨⟨"TeamB2", "B2", 6⟩, 2, 7, 7, 1, 2⟩] =
      [((⟨⟨"TeamA0", "A0", 1⟩, 6, 10, 5, 3, 0⟩ : StandTeam),
          ⟨⟨"TeamB2", "B2", 6⟩, 2, 7, 7, 1, 2⟩),
       (⟨⟨"TeamC0", "C0", 7⟩, 6, 12, 5, 3, 0⟩, ⟨⟨"TeamC1", "C1", 8⟩, 4, 7, 6, 2, 1⟩),
       (⟨⟨"TeamB1", "B1", 5⟩, 4, 8, 6, 2, 1⟩, ⟨⟨"TeamA1", "A1", 2⟩, 4, 9, 6, 2, 1⟩),
       (⟨⟨"TeamA2", "A2", 3⟩, 2, 8, 7, 1, 2⟩, ⟨⟨"TeamB0", "B0", 4⟩, 6, 11, 5, 3, 0⟩)] := by
  have h := getTopEightTeams_spec
    ⟨⟨"TeamA0", "A0", 1⟩, 6, 10, 5, 3, 0⟩ ⟨⟨"TeamA1", "A1", 2⟩, 4, 9, 6, 2, 1⟩
    ⟨⟨"TeamA2", "A2", 3⟩, 2, 8, 7, 1, 2⟩
    ⟨⟨"TeamB0", "B0", 4⟩, 6, 11, 5, 3, 0⟩ ⟨⟨"TeamB1", "B1", 5⟩, 4, 8, 6, 2, 1⟩
    ⟨⟨"TeamB2", "B2", 6⟩, 2, 7, 7, 1, 2⟩
    ⟨⟨"TeamC0", "C0", 7⟩, 6, 12, 5, 3, 0⟩ ⟨⟨"TeamC1", "C1", 8⟩, 4, 7, 6, 2, 1⟩
    ⟨⟨"TeamC2", "C2", 9⟩, 2, 6, 7, 1, 2⟩
    [] [] [] ⟨wRankA, wRankB, wRankC⟩ rfl rfl rfl
  exact ⟨h.1, h.2.1 _ (by simp), h.2.2.2.2.1 _ _ _ _ _ _ _ _⟩

/-- Claim C7 (confirmed): `getEliminationResults` simulates the 4
quarterfinals in bracket order, each winner (the first team exactly when its
score is strictly greater; an exact tie advances the second team) advancing in
order; the semifinals pair quarterfinal winners 0 vs 1 and 2 vs 3; each
semifinal winner goes to the final and each loser to the bronze match,
preserving pairing position; exactly one final and one bronze match are
simulated; and all 8 matches run through `simulateMatch` on the threaded
state, consuming 24 random draws (so the form table keeps being updated at
every stage). -/
theorem getEliminationResults_spec (rand : ℕ → ℚ) (ex : ExhMap)
    (q1 q2 q3 q4 : Team × Team) (qfs : List (Team × Team))
    (hq : qfs = [q1, q2, q3, q4]) (st : SimState) :
    let s1 := simulateMatch rand ex q1.1 q1.2 st
    let s2 := simulateMatch rand ex q2.1 q2.2 s1.2
    let s3 := simulateMatch rand ex q3.1 q3.2 s2.2
    let s4 := simulateMatch rand ex q4.1 q4.2 s3.2
    let w1 := matchWinner q1 s1.1
    let w2 := matchWinner q2 s2.1
    let w3 := matchWinner q3 s3.1
    let w4 := matchWinner q4 s4.1
    let sf1 := simulateMatch rand ex w1 w2 s4.2
    let sf2 := simulateMatch rand ex w3 w4 sf1.2
    let fr := simulateMatch rand ex (matchWinner (w1, w2) sf1.1)
      (matchWinner (w3, w4) sf2.1) sf2.2
    let br := simulateMatch rand ex (matchLoser (w1, w2) sf1.1)
      (matchLoser (w3, w4) sf2.1) fr.2
    (getEliminationResults rand ex qfs st =
      Except.ok
        ({ quarterfinals := [(q1, s1.1), (q2, s2.1), (q3, s3.1), (q4, s4.1)],
           semifinals := [((w1, w2), sf1.1), ((w3, w4), sf2.1)],
           finals := [((matchWinner (w1, w2) sf1.1, matchWinner (w3, w4) sf2.1),
             fr.1)],
           bronze := [((matchLoser (w1, w2) sf1.1, matchLoser (w3, w4) sf2.1),
             br.1)] },
         br.2)) ∧
    (getEliminationResults rand ex qfs st).map (fun p => p.2.idx) =
      Except.ok (st.idx + 24) ∧
    (∀ (mm : Team × Team) (rr : ℤ × ℤ), rr.1 = rr.2 →
      matchWinner mm rr = mm.2 ∧ matchLoser mm rr = mm.1) := by
  subst hq
  refine ⟨rfl, ?_, ?_⟩
  · have hred : Except.map (fun (p : ElimResults × SimState) => p.2.idx)
        (getEliminationResults rand ex [q1, q2, q3, q4] st) =
        Except.ok (st.idx + 3 + 3 + 3 + 3 + 3 + 3 + 3 + 3) := rfl
    exact hred.trans (congrArg Except.ok (by omega))
  · intro mm rr h
    constructor <;> simp [matchWinner, matchLoser, h]

/-- Witness for `getEliminationResults_spec`: a concrete 4-quarterfinal
bracket consumes exactly 24 random draws over its 8 matches, and an exact tie
advances/eliminates the second/first team respectively. -/
theorem getEliminationResults_spec_witness :
    (getEliminationResults wRand wEx
        [(wTeamA, wTeamB), (wTeamC, wTeamD), (wTeamA, wTeamC), (wTeamB, wTeamD)]
        wSt).map (fun p => p.2.idx) = Except.ok 24 ∧
    matchWinner (wTeamA, wTeamB) (77, 77) = wTeamB ∧
    matchLoser (wTeamA, wTeamB) (77, 77) = wTeamA := by
  have h := getEliminationResults_spec wRand wEx (wTeamA, wTeamB) (wTeamC, wTeamD)
    (wTeamA, wTeamC) (wTeamB, wTeamD)
    [(wTeamA, wTeamB), (wTeamC, wTeamD), (wTeamA, wTeamC), (wTeamB, wTeamD)]
    rfl wSt
  exact ⟨h.2.1.trans (by rfl), (h.2.2 (wTeamA, wTeamB) (77, 77) rfl).1,
    (h.2.2 (wTeamA, wTeamB) (77, 77) rfl).2⟩

end TournamentSim
